import Mathlib

/-!
Verification of the Agent Y request-classification and prompt-construction
engine.  The JavaScript / Google Apps Script sources are shallowly embedded:
strings are Lean `String`s, JS `split`/`includes`/`substring`/`trim` are
modelled at the `List Char` level, exceptions become `Except String`, and
the provider HTTP client is a function parameter whose invocations are
counted explicitly.
-/

set_option maxRecDepth 10000

/-! ## Basic string operations (JS semantics) -/

/-- Membership test: does the list `a` occur as a leading segment of `b`. -/
def prefixB : List Char → List Char → Bool
  | [], _ => true
  | _ :: _, [] => false
  | a :: as, b :: bs => a == b && prefixB as bs

/-- The JS whitespace class used by `trim` (ASCII subset). -/
def jsWhitespace (c : Char) : Bool := c == ' ' || c == '\t' || c == '\n' || c == '\r'

/-- JS `s.trim()`. -/
def jsTrim (s : String) : String :=
  String.mk (((s.data.dropWhile jsWhitespace).reverse.dropWhile jsWhitespace).reverse)

/-- JS `s.toLowerCase()` (ASCII). -/
def jsToLower (s : String) : String := String.mk (s.data.map Char.toLower)

/-- JS `s.startsWith(pre)`. -/
def jsStartsWith (s pre : String) : Bool := prefixB pre.data s.data

/-- Does `p` occur as a contiguous segment anywhere in `l` (JS `includes`). -/
def infixB (p : List Char) : List Char → Bool
  | [] => prefixB p []
  | l@(_ :: rest) => prefixB p l || infixB p rest

/-- JS `s.includes(sub)`. -/
def strIncludes (s sub : String) : Bool := infixB sub.data s.data

/-- Case-insensitive version of `prefixB` (the pattern `a` is lower case). -/
def ciPrefixB : List Char → List Char → Bool
  | [], _ => true
  | _ :: _, [] => false
  | a :: as, b :: bs => a == b.toLower && ciPrefixB as bs

/-- JS `s.split(' ')`: split on single space characters, keeping empties. -/
def jsSplitSpace : List Char → List (List Char)
  | [] => [[]]
  | c :: cs =>
    if c = ' ' then [] :: jsSplitSpace cs
    else
      match jsSplitSpace cs with
      | t :: ts => (c :: t) :: ts
      | [] => [[c]]

/-- JS `parts.join(' ')`. -/
def jsJoinSpace : List (List Char) → List Char
  | [] => []
  | [x] => x
  | x :: y :: r => x ++ ' ' :: jsJoinSpace (y :: r)

/-- JS `s.substring(0, e)` (negative end clamps to 0 via `Nat`). -/
def jsTake (s : String) (e : Nat) : String := String.mk (s.data.take e)

/-- JS `getWordCount`: `text.trim().split(/\s+/).filter(w => w.length > 0).length`. -/
def getWordCount (text : String) : Nat :=
  ((text.data.splitOnP fun c => c.isWhitespace).filter fun w => w ≠ []).length

/-- JS `(num/den).toFixed(2)` for non-negative rationals `num/den`, `den > 0`:
round half away from zero to two decimals and print. -/
def toFixed2 (num den : Nat) : String :=
  let r := (200 * num + den) / (2 * den)
  toString (r / 100) ++ "." ++
    (if r % 100 < 10 then "0" ++ toString (r % 100) else toString (r % 100))

/-! ## IntentClassifier (AgentController.parseUserInput / inferCommand) -/

/-- The ordered keyword table of `AgentController.inferCommand`. -/
def inferKeywords : List (String × List String) :=
  [("summarize", ["summarize", "summary", "sum up", "brief", "overview"]),
   ("rewrite", ["rewrite", "rephrase", "improve", "edit", "revise"]),
   ("explain", ["explain", "clarify", "what does", "what is", "help me understand"]),
   ("generate", ["generate", "create", "write", "compose", "draft"]),
   ("analyze", ["analyze", "review", "examine", "assess", "evaluate"]),
   ("translate", ["translate", "convert to", "in spanish", "in french"]),
   ("format", ["format", "style", "make it", "change to"])]

/-- `AgentController.inferCommand`: first table entry one of whose keywords
occurs in the input wins; `general` if none matches. -/
def inferCommand (input : String) : String :=
  match inferKeywords.find? (fun kw => kw.2.any fun w => strIncludes input w) with
  | some kw => kw.1
  | none => "general"

/-- Result of `AgentController.parseUserInput`. -/
structure ParsedRequest where
  command : String
  parameters : String
  isExplicitCommand : Bool
  deriving Repr, DecidableEq

/-- `AgentController.parseUserInput`: trim + lower-case; a leading `/` takes
the explicit-command path (`split(' ')`), otherwise the command is inferred. -/
def parseUserInput (input : String) : ParsedRequest :=
  let trimmedInput := jsToLower (jsTrim input)
  if jsStartsWith trimmedInput "/" then
    let parts := jsSplitSpace (trimmedInput.data.drop 1)
    { command := String.mk (parts.headD [])
      parameters := String.mk (jsJoinSpace (parts.drop 1))
      isExplicitCommand := true }
  else
    { command := inferCommand trimmedInput
      parameters := input
      isExplicitCommand := false }

/-! ## The alternative classifier (AgentController.parseCommand, part_005) -/

/-- A pattern of `parseCommand`: a plain literal regex, or a `a.*b` regex
(two literals separated by a greedy gap of non-newline characters). -/
inductive Pat where
  | lit : String → Pat
  | gap : String → String → Pat
  deriving Repr, DecidableEq

/-- Does `b` occur after a (possibly empty) run of non-newline characters,
starting at the head of `l` (the `.*b` part of an `a.*b` regex). -/
def noNlThen (b : List Char) : List Char → Bool
  | [] => prefixB b []
  | l@(c :: rest) => prefixB b l || (c != '\n' && noNlThen b rest)

/-- JS `/a.*b/.test(s)`: some occurrence of `a` is followed, across
non-newline characters only, by an occurrence of `b`. -/
def gapMatch (a b : List Char) : List Char → Bool
  | [] => prefixB a [] && noNlThen b []
  | l@(_ :: rest) => (prefixB a l && noNlThen b (l.drop a.length)) || gapMatch a b rest

/-- `pattern.test(normalizedCommand)`. -/
def patTest (p : Pat) (s : String) : Bool :=
  match p with
  | .lit a => strIncludes s a
  | .gap a b => gapMatch a.data b.data s.data

/-- The ordered pattern table of `AgentController.parseCommand` (part_005). -/
def parseCommandPatterns : List (String × List Pat) :=
  [("summarize", [.lit "summarize", .lit "summary", .lit "sum up", .lit "brief", .lit "overview"]),
   ("rewrite", [.lit "rewrite", .lit "improve", .lit "enhance", .lit "better", .lit "rephrase", .lit "revise"]),
   ("explain", [.lit "explain", .lit "clarify", .gap "what does" "mean", .lit "help me understand", .lit "break down"]),
   ("generate", [.lit "generate", .lit "create", .lit "write", .lit "compose", .lit "draft"]),
   ("translate", [.lit "translate", .lit "translation", .gap "convert" "to"]),
   ("format", [.lit "format", .lit "structure", .lit "organize", .lit "layout"])]

/-- Result of `AgentController.parseCommand`. -/
structure ParsedCommand where
  tool : String
  originalCommand : String
  confidence : ℚ
  deriving Repr

/-- `AgentController.parseCommand` (part_005): first tool whose pattern set
matches the lower-cased trimmed command; `generate` as the fallback. -/
def parseCommand (command : String) : ParsedCommand :=
  let normalizedCommand := jsTrim (jsToLower command)
  match parseCommandPatterns.find? (fun tp => tp.2.any fun p => patTest p normalizedCommand) with
  | some tp => { tool := tp.1, originalCommand := command, confidence := 4/5 }
  | none => { tool := "generate", originalCommand := command, confidence := 1/2 }

/-! ## Spec-side characterisations -/

/-- Modelled from the spec: the first whitespace-delimited token of a string
("the first whitespace-delimited token after the prefix"). -/
def specFirstWhitespaceToken (l : List Char) : String :=
  String.mk (l.takeWhile fun c => !c.isWhitespace)

/-- First-match semantics of an ordered `command -> patterns` table with a
default: either no entry matches and the result is the default, or the result
is the command of the first matching entry. -/
def FirstHit {α β : Type} (table : List (α × β)) (test : β → Bool)
    (dflt result : α) : Prop :=
  (result = dflt ∧ ∀ e ∈ table, test e.2 = false) ∨
  (∃ i, ∃ h : i < table.length,
    result = (table.get ⟨i, h⟩).1 ∧ test (table.get ⟨i, h⟩).2 = true ∧
    ∀ j, ∀ hj : j < i, test (table.get ⟨j, hj.trans h⟩).2 = false)

/-! ## Helper lemmas -/

theorem jsSplitSpace_ne_nil (l : List Char) : jsSplitSpace l ≠ [] := by
  cases l with
  | nil => simp [jsSplitSpace]
  | cons c cs =>
    simp only [jsSplitSpace]
    split
    · simp
    · split <;> simp

theorem jsSplitSpace_headD (l : List Char) :
    (jsSplitSpace l).headD [] = l.takeWhile (fun c => c != ' ') := by
  induction l with
  | nil => simp [jsSplitSpace]
  | cons c cs ih =>
    simp only [jsSplitSpace]
    by_cases hc : c = ' '
    · simp [hc, List.takeWhile]
    · simp only [if_neg hc]
      rcases hr : jsSplitSpace cs with _ | ⟨t, ts⟩
      · exact absurd hr (jsSplitSpace_ne_nil cs)
      · have ht : t = cs.takeWhile (fun c => c != ' ') := by
          have h2 := ih
          rw [hr] at h2
          simpa using h2
        have hcb : (c != ' ') = true := by simpa using hc
        simp [List.takeWhile, hcb, ht]

theorem jsJoin_jsSplit (l : List Char) : jsJoinSpace (jsSplitSpace l) = l := by
  induction l with
  | nil => simp [jsSplitSpace, jsJoinSpace]
  | cons c cs ih =>
    simp only [jsSplitSpace]
    by_cases hc : c = ' '
    · simp only [if_pos hc]
      rcases hr : jsSplitSpace cs with _ | ⟨t, ts⟩
      · exact absurd hr (jsSplitSpace_ne_nil cs)
      · rw [hr] at ih
        simp [jsJoinSpace, ih, hc]
    · simp only [if_neg hc]
      rcases hr : jsSplitSpace cs with _ | ⟨t, ts⟩
      · exact absurd hr (jsSplitSpace_ne_nil cs)
      · rw [hr] at ih
        cases ts with
        | nil => simp_all [jsJoinSpace]
        | cons u us => simp_all [jsJoinSpace]

theorem find?_spec {α : Type} (p : α → Bool) (l : List α) :
    (l.find? p = none ∧ ∀ a ∈ l, p a = false) ∨
    ∃ i, ∃ h : i < l.length,
      l.find? p = some (l.get ⟨i, h⟩) ∧ p (l.get ⟨i, h⟩) = true ∧
      ∀ j, ∀ hj : j < i, p (l.get ⟨j, hj.trans h⟩) = false := by
  induction l with
  | nil => exact Or.inl ⟨rfl, by simp⟩
  | cons a l ih =>
    cases hp : p a with
    | true =>
      refine Or.inr ⟨0, by simp, ?_, by simpa using hp, ?_⟩
      · simp [List.find?, hp]
      · intro j hj; exact absurd hj (Nat.not_lt_zero j)
    | false =>
      rcases ih with ⟨hnone, hall⟩ | ⟨i, h, hfind, htest, hearly⟩
      · refine Or.inl ⟨?_, ?_⟩
        · simp [List.find?, hp, hnone]
        · intro x hx
          rcases List.mem_cons.mp hx with rfl | hx
          · exact hp
          · exact hall x hx
      · refine Or.inr ⟨i + 1, Nat.succ_lt_succ h, ?_, ?_, ?_⟩
        · simpa [List.find?, hp] using hfind
        · simpa using htest
        · intro j hj
          cases j with
          | zero => simpa using hp
          | succ j => simpa using hearly j (Nat.lt_of_succ_lt_succ hj)

/-! ## Document context and provider stubs -/

/-- Document context handed to tools: current selection and full content. -/
structure DocContext where
  selection : String
  content : String
  deriving Repr, DecidableEq

/-- A provider client's `generateResponse(prompt, {maxTokens})`: returns the
generated text or throws (`Except.error`). -/
def Provider : Type := String → Nat → Except String String

/-! ## SummarizeTool (src/core/tools/SummarizeTool.js) -/

/-- The `([^"]+)"` tail of a quoted-group regex: a non-empty run of
non-quote characters followed by a closing quote. -/
def grabQuoted (l : List Char) : Option (List Char) :=
  let body := l.takeWhile fun c => c != '"'
  match l.drop body.length with
  | '"' :: _ => if body.isEmpty then none else some body
  | _ => none

/-- The `\s*"([^"]+)"` tail of `/summarize:\s*"([^"]+)"/`. -/
def wsStarQuote : List Char → Option (List Char)
  | [] => none
  | c :: rest =>
    if c.isWhitespace then wsStarQuote rest
    else if c = '"' then grabQuoted rest else none

/-- Try `/summarize:\s*"([^"]+)"/` anchored at the head of `l`. -/
def summQuoteAt (l : List Char) : Option (List Char) :=
  if prefixB "summarize:".data l then wsStarQuote (l.drop "summarize:".data.length)
  else none

/-- `parameters.match(/summarize:\s*"([^"]+)"/)`: leftmost match of the
quoted-override pattern. -/
def scanSummQuote : List Char → Option (List Char)
  | [] => none
  | c :: rest =>
    match summQuoteAt (c :: rest) with
    | some g => some g
    | none => scanSummQuote rest

/-- `SummarizeTool.getTextToSummarize`: quoted override, else selection,
else full document content. -/
def SummarizeTool.getTextToSummarize (req : ParsedRequest) (ctx : DocContext) : String :=
  let quoted :=
    if strIncludes req.parameters "summarize:" then scanSummQuote req.parameters.data
    else none
  match quoted with
  | some g => String.mk g
  | none => if jsTrim ctx.selection ≠ "" then ctx.selection else ctx.content

/-- `SummarizeTool.extractStyle`. -/
def SummarizeTool.extractStyle (parameters : String) : String :=
  let lowerParams := jsToLower parameters
  if strIncludes lowerParams "bullet" || strIncludes lowerParams "points" ||
      strIncludes lowerParams "list" then "bullet-points"
  else if strIncludes lowerParams "detailed" || strIncludes lowerParams "comprehensive" ||
      strIncludes lowerParams "thorough" then "detailed"
  else "concise"

/-- `SummarizeTool.extractLength`. -/
def SummarizeTool.extractLength (parameters : String) : String :=
  let lowerParams := jsToLower parameters
  if strIncludes lowerParams "short" || strIncludes lowerParams "brief" ||
      strIncludes lowerParams "quick" then "short"
  else if strIncludes lowerParams "long" || strIncludes lowerParams "detailed" ||
      strIncludes lowerParams "extensive" then "long"
  else "medium"

/-- `SummarizeTool.getMaxTokensForLength`. -/
def SummarizeTool.getMaxTokensForLength (parameters : String) : Nat :=
  match SummarizeTool.extractLength parameters with
  | "short" => 100
  | "long" => 800
  | _ => 300

/-- `SummarizeTool.buildSummarizationPrompt`. -/
def SummarizeTool.buildSummarizationPrompt (text : String) (req : ParsedRequest) : String :=
  let style := SummarizeTool.extractStyle req.parameters
  let length := SummarizeTool.extractLength req.parameters
  "You are an expert at creating clear, accurate summaries. " ++
  (if style = "bullet-points" then "Create a bullet-point summary that captures the key points. "
   else if style = "detailed" then "Create a comprehensive summary that covers all important details. "
   else "Create a concise summary that captures the main ideas. ") ++
  (if length = "short" then "Keep it brief - 1-2 sentences maximum. "
   else if length = "long" then "Provide a thorough summary with multiple paragraphs if needed. "
   else "Aim for a moderate length - 3-5 sentences. ") ++
  "\n\nText to summarize:\n\"" ++ text ++ "\"\n\n" ++
  "Please provide the summary now:"

/-- The `statistics` object of `SummarizeTool.formatSummaryResult`. -/
structure SummStats where
  originalWords : Nat
  summaryWords : Nat
  compressionRatio : String
  originalCharacters : Nat
  summaryCharacters : Nat
  deriving Repr, DecidableEq

/-- The `result` object of a successful summarization. -/
structure SummOutput where
  summary : String
  statistics : SummStats
  action : String
  deriving Repr, DecidableEq

/-- `SummarizeTool.formatSummaryResult`. -/
def SummarizeTool.formatSummaryResult (summary originalText : String) : SummOutput :=
  let cleanSummary := jsTrim summary
  let originalWordCount := getWordCount originalText
  let summaryWordCount := getWordCount cleanSummary
  { summary := cleanSummary
    statistics :=
      { originalWords := originalWordCount
        summaryWords := summaryWordCount
        compressionRatio :=
          if originalWordCount > 0 then toFixed2 summaryWordCount originalWordCount else "0"
        originalCharacters := originalText.length
        summaryCharacters := cleanSummary.length }
    action := "summarize" }

/-- The `metadata` object of `SummarizeTool.execute`. -/
structure SummMetadata where
  originalLength : Nat
  summaryLength : Nat
  compressionRatio : String
  style : String
  deriving Repr, DecidableEq

/-- The object returned by `SummarizeTool.execute`. -/
structure SummToolResult where
  success : Bool
  result : Option SummOutput
  error : Option String
  metadata : Option SummMetadata
  deriving Repr, DecidableEq

/-- `SummarizeTool.execute`; the second component counts provider calls. -/
def SummarizeTool.execute (req : ParsedRequest) (ctx : DocContext) (provider : Provider) :
    SummToolResult × Nat :=
  let textToSummarize := SummarizeTool.getTextToSummarize req ctx
  if jsTrim textToSummarize = "" then
    ({ success := false, result := none
       error := some "No text available to summarize. Please select text or ensure document has content."
       metadata := none }, 0)
  else
    let prompt := SummarizeTool.buildSummarizationPrompt textToSummarize req
    match provider prompt (SummarizeTool.getMaxTokensForLength req.parameters) with
    | .error msg =>
      ({ success := false, result := none
         error := some ("Summarization failed: " ++ msg), metadata := none }, 1)
    | .ok summary =>
      let result := SummarizeTool.formatSummaryResult summary textToSummarize
      ({ success := true, result := some result, error := none
         metadata := some
           { originalLength := textToSummarize.length
             summaryLength := result.summary.length
             compressionRatio := toFixed2 result.summary.length textToSummarize.length
             style := SummarizeTool.extractStyle req.parameters } }, 1)

/-! ## RewriteTool (src/core/tools/RewriteTool.js) -/

/-- `parameters.match(/"([^"]+)"/)`: leftmost non-empty quoted substring. -/
def scanQuoted : List Char → Option (List Char)
  | [] => none
  | c :: rest =>
    if c = '"' then
      match grabQuoted rest with
      | some g => some g
      | none => scanQuoted rest
    else scanQuoted rest

/-- `RewriteTool.getTextToRewrite`: quoted text, else selection, else empty. -/
def RewriteTool.getTextToRewrite (req : ParsedRequest) (ctx : DocContext) : String :=
  match scanQuoted req.parameters.data with
  | some g => String.mk g
  | none => if jsTrim ctx.selection ≠ "" then ctx.selection else ""

/-- The ordered style keyword table of `RewriteTool.extractStyle`. -/
def rwStyles : List (String × List String) :=
  [("formal", ["formal", "professional", "business", "official"]),
   ("casual", ["casual", "informal", "conversational", "relaxed"]),
   ("academic", ["academic", "scholarly", "research", "technical"]),
   ("creative", ["creative", "artistic", "expressive", "imaginative"]),
   ("simple", ["simple", "clear", "plain", "straightforward"]),
   ("improve", ["improve", "better", "enhance", "polish"])]

/-- `RewriteTool.extractStyle` (input already lower-cased by the caller). -/
def RewriteTool.extractStyle (params : String) : String :=
  match rwStyles.find? (fun e => e.2.any fun k => strIncludes params k) with
  | some e => e.1
  | none => "improve"

/-- The ordered tone keyword table of `RewriteTool.extractTone`. -/
def rwTones : List (String × List String) :=
  [("professional", ["professional", "business", "corporate"]),
   ("friendly", ["friendly", "warm", "approachable", "welcoming"]),
   ("persuasive", ["persuasive", "convincing", "compelling"]),
   ("authoritative", ["authoritative", "confident", "expert"]),
   ("empathetic", ["empathetic", "understanding", "compassionate"]),
   ("neutral", ["neutral", "objective", "balanced"])]

/-- `RewriteTool.extractTone`. -/
def RewriteTool.extractTone (params : String) : String :=
  match rwTones.find? (fun e => e.2.any fun k => strIncludes params k) with
  | some e => e.1
  | none => "neutral"

/-- `RewriteTool.extractLengthPreference`. -/
def RewriteTool.extractLengthPreference (params : String) : String :=
  if strIncludes params "shorter" || strIncludes params "concise" ||
      strIncludes params "brief" then "shorter"
  else if strIncludes params "longer" || strIncludes params "expand" ||
      strIncludes params "elaborate" then "longer"
  else "same"

/-- `RewriteTool.extractSpecificInstructions`. -/
def RewriteTool.extractSpecificInstructions (params : String) : List String :=
  (if strIncludes params "grammar" then ["Fix grammar and spelling"] else []) ++
  (if strIncludes params "clarity" then ["Improve clarity"] else []) ++
  (if strIncludes params "flow" then ["Improve flow and readability"] else []) ++
  (if strIncludes params "active voice" then ["Use active voice"] else []) ++
  (if strIncludes params "passive voice" then ["Use passive voice"] else []) ++
  (if strIncludes params "remove jargon" then ["Remove jargon and technical terms"] else []) ++
  (if strIncludes params "add examples" then ["Add examples or illustrations"] else [])

/-- The `instructions` object of `RewriteTool.parseRewriteInstructions`. -/
structure RewriteInstructions where
  style : String
  tone : String
  length : String
  specific : List String
  deriving Repr, DecidableEq

/-- `RewriteTool.parseRewriteInstructions`. -/
def RewriteTool.parseRewriteInstructions (req : ParsedRequest) : RewriteInstructions :=
  let params := jsToLower req.parameters
  { style := RewriteTool.extractStyle params
    tone := RewriteTool.extractTone params
    length := RewriteTool.extractLengthPreference params
    specific := RewriteTool.extractSpecificInstructions params }

/-- The description table of `RewriteTool.getStyleDescription`. -/
def rwStyleDescriptions : List (String × String) :=
  [("formal", "Professional and formal language, suitable for business or official documents"),
   ("casual", "Conversational and relaxed tone, as if speaking to a friend"),
   ("academic", "Scholarly and precise language, suitable for research or educational content"),
   ("creative", "Expressive and imaginative language with vivid descriptions"),
   ("simple", "Clear and straightforward language, easy to understand"),
   ("improve", "Enhanced version with better word choice, structure, and clarity")]

/-- `RewriteTool.getStyleDescription`. -/
def RewriteTool.getStyleDescription (style : String) : String :=
  (rwStyleDescriptions.lookup style).getD
    "Enhanced version with better word choice, structure, and clarity"

/-- The description table of `RewriteTool.getToneDescription`. -/
def rwToneDescriptions : List (String × String) :=
  [("professional", "Maintain a professional and business-appropriate tone"),
   ("friendly", "Use a warm, approachable, and friendly tone"),
   ("persuasive", "Write in a compelling and convincing manner"),
   ("authoritative", "Use confident and expert language"),
   ("empathetic", "Show understanding and compassion"),
   ("neutral", "Maintain an objective and balanced tone")]

/-- `RewriteTool.getToneDescription`. -/
def RewriteTool.getToneDescription (tone : String) : String :=
  (rwToneDescriptions.lookup tone).getD "Maintain an objective and balanced tone"

/-- The description table of `RewriteTool.getLengthDescription`. -/
def rwLengthDescriptions : List (String × String) :=
  [("shorter", "Make it more concise while preserving all key information"),
   ("longer", "Expand with additional details, examples, or explanations"),
   ("same", "Keep approximately the same length")]

/-- `RewriteTool.getLengthDescription`. -/
def RewriteTool.getLengthDescription (length : String) : String :=
  (rwLengthDescriptions.lookup length).getD "Keep approximately the same length"

/-- `RewriteTool.buildRewritePrompt`. -/
def RewriteTool.buildRewritePrompt (text : String) (ins : RewriteInstructions) : String :=
  "You are an expert editor and writer. Please rewrite the following text according to these specifications:\n\n" ++
  "Style: " ++ RewriteTool.getStyleDescription ins.style ++ "\n" ++
  "Tone: " ++ RewriteTool.getToneDescription ins.tone ++ "\n" ++
  "Length: " ++ RewriteTool.getLengthDescription ins.length ++ "\n" ++
  (if ins.specific ≠ [] then
    "\nSpecific requirements:\n" ++ String.join (ins.specific.map fun i => "- " ++ i ++ "\n")
   else "") ++
  "\nOriginal text:\n\"" ++ text ++ "\"\n\n" ++
  "Please provide the rewritten version that follows all the above requirements:"

/-- Round `num/den * 100` to tenths of a percent, half away from zero. -/
def pctTenths (num den : Nat) : Nat := (2000 * num + den) / (2 * den)

/-- Print a tenths value as JS `toFixed(1)` does for non-negative numbers. -/
def fmtTenths (t : Nat) : String := toString (t / 10) ++ "." ++ toString (t % 10)

/-- `RewriteTool.calculateLengthChange`. -/
def RewriteTool.calculateLengthChange (original rewritten : String) : String :=
  let originalLength := original.length
  let rewrittenLength := rewritten.length
  if originalLength = 0 then "N/A"
  else if rewrittenLength ≥ originalLength then
    let t := pctTenths (rewrittenLength - originalLength) originalLength
    if t < 50 then "Similar length" else fmtTenths t ++ "% longer"
  else
    let t := pctTenths (originalLength - rewrittenLength) originalLength
    if t < 50 then "Similar length" else fmtTenths t ++ "% shorter"

/-- The `comparison` object of `RewriteTool.formatRewriteResult`. -/
structure RewriteComparison where
  originalWordCount : Nat
  rewrittenWordCount : Nat
  originalCharCount : Nat
  rewrittenCharCount : Nat
  deriving Repr, DecidableEq

/-- The `result` object of a successful rewrite. -/
structure RewriteOutput where
  originalText : String
  rewrittenText : String
  instructions : RewriteInstructions
  comparison : RewriteComparison
  action : String
  deriving Repr, DecidableEq

/-- `RewriteTool.formatRewriteResult`. -/
def RewriteTool.formatRewriteResult (rewrittenText originalText : String)
    (instructions : RewriteInstructions) : RewriteOutput :=
  let cleanRewritten := jsTrim rewrittenText
  { originalText := originalText
    rewrittenText := cleanRewritten
    instructions := instructions
    comparison :=
      { originalWordCount := getWordCount originalText
        rewrittenWordCount := getWordCount cleanRewritten
        originalCharCount := originalText.length
        rewrittenCharCount := cleanRewritten.length }
    action := "rewrite" }

/-- The `metadata` object of `RewriteTool.execute`. -/
structure RewriteMetadata where
  originalLength : Nat
  rewrittenLength : Nat
  style : String
  tone : String
  lengthChange : String
  deriving Repr, DecidableEq

/-- The object returned by `RewriteTool.execute`. -/
structure RewriteToolResult where
  success : Bool
  result : Option RewriteOutput
  error : Option String
  metadata : Option RewriteMetadata
  deriving Repr, DecidableEq

/-- `RewriteTool.execute`; the second component counts provider calls. -/
def RewriteTool.execute (req : ParsedRequest) (ctx : DocContext) (provider : Provider)
    (cfgMaxTokens : Nat) : RewriteToolResult × Nat :=
  let textToRewrite := RewriteTool.getTextToRewrite req ctx
  if jsTrim textToRewrite = "" then
    ({ success := false, result := none
       error := some "No text available to rewrite. Please select text in the document."
       metadata := none }, 0)
  else
    let instructions := RewriteTool.parseRewriteInstructions req
    let prompt := RewriteTool.buildRewritePrompt textToRewrite instructions
    match provider prompt cfgMaxTokens with
    | .error msg =>
      ({ success := false, result := none
         error := some ("Rewriting failed: " ++ msg), metadata := none }, 1)
    | .ok rewrittenText =>
      let result := RewriteTool.formatRewriteResult rewrittenText textToRewrite instructions
      ({ success := true, result := some result, error := none
         metadata := some
           { originalLength := textToRewrite.length
             rewrittenLength := result.rewrittenText.length
             style := instructions.style
             tone := instructions.tone
             lengthChange := RewriteTool.calculateLengthChange textToRewrite result.rewrittenText } }, 1)

/-! ## ExplainTool (part_007) -/

/-- `\s+"([^"]+)"`: at least one whitespace character, then a quoted group. -/
def wsMoreThenQuote : List Char → Option (List Char)
  | [] => none
  | c :: rest =>
    if c.isWhitespace then wsMoreThenQuote rest
    else if c = '"' then grabQuoted rest else none

/-- Try `/explain\s+"([^"]+)"/i` anchored at the head of `l`. -/
def explainQuoteAt (l : List Char) : Option (List Char) :=
  if ciPrefixB "explain".data l then
    match l.drop "explain".data.length with
    | [] => none
    | c :: rest => if c.isWhitespace then wsMoreThenQuote rest else none
  else none

/-- `parameters.match(/explain\s+"([^"]+)"/i)`: leftmost match. -/
def scanExplainQuote : List Char → Option (List Char)
  | [] => none
  | c :: rest =>
    match explainQuoteAt (c :: rest) with
    | some g => some g
    | none => scanExplainQuote rest

/-- The lazy group `(.+?)(?:\?|$)` continued after its first character:
stop before a `?` or at the end, never crossing a newline. -/
def lazyRest (acc : List Char) : List Char → List Char
  | [] => acc
  | c :: rest => if c = '?' then acc else if c = '\n' then acc ++ ['\n'] else lazyRest (acc ++ [c]) rest

/-- `(.+?)(?:\?|$)`: at least one non-newline character, lazily extended
until a `?` or the end of the string. -/
def lazyGroup : List Char → Option (List Char)
  | [] => none
  | c :: rest =>
    if c = '\n' then none
    else
      let g := lazyRest [c] rest
      if g.contains '\n' then none else some g

/-- `\s+(.+?)(?:\?|$)` with the regex engine's backtracking: the greedy
whitespace run is given back one character at a time until the lazy group
can match. -/
def moreWsOrGroup : List Char → Option (List Char)
  | [] => none
  | c :: rest =>
    if c.isWhitespace then
      match moreWsOrGroup rest with
      | some g => some g
      | none => lazyGroup (c :: rest)
    else lazyGroup (c :: rest)

/-- The `(?:is|does|are)\s+(.+?)(?:\?|$)` tail of the `what`-pattern. -/
def altThenWsLazy (l : List Char) : Option (List Char) :=
  (if ciPrefixB "is".data l then
    match l.drop 2 with
    | [] => none
    | c :: rest => if c.isWhitespace then moreWsOrGroup (c :: rest) else none
   else none).orElse fun _ =>
  (if ciPrefixB "does".data l then
    match l.drop 4 with
    | [] => none
    | c :: rest => if c.isWhitespace then moreWsOrGroup (c :: rest) else none
   else none).orElse fun _ =>
  (if ciPrefixB "are".data l then
    match l.drop 3 with
    | [] => none
    | c :: rest => if c.isWhitespace then moreWsOrGroup (c :: rest) else none
   else none)

/-- `\s+` (greedy) followed by the alternation tail of the `what`-pattern. -/
def wsMoreThenAlt : List Char → Option (List Char)
  | [] => none
  | c :: rest => if c.isWhitespace then wsMoreThenAlt rest else altThenWsLazy (c :: rest)

/-- Try `/what\s+(?:is|does|are)\s+(.+?)(?:\?|$)/i` anchored at the head. -/
def whatMatchAt (l : List Char) : Option (List Char) :=
  if ciPrefixB "what".data l then
    match l.drop 4 with
    | [] => none
    | c :: rest => if c.isWhitespace then wsMoreThenAlt rest else none
  else none

/-- `parameters.match(/what\s+(?:is|does|are)\s+(.+?)(?:\?|$)/i)`. -/
def scanWhatMatch : List Char → Option (List Char)
  | [] => none
  | c :: rest =>
    match whatMatchAt (c :: rest) with
    | some g => some g
    | none => scanWhatMatch rest

/-- `ExplainTool.getTextToExplain`: quoted concept, else `what is/does/are`
phrase, else selection, else empty. -/
def ExplainTool.getTextToExplain (req : ParsedRequest) (ctx : DocContext) : String :=
  match scanExplainQuote req.parameters.data with
  | some g => String.mk g
  | none =>
    match scanWhatMatch req.parameters.data with
    | some g => jsTrim (String.mk g)
    | none => if jsTrim ctx.selection ≠ "" then ctx.selection else ""

/-- The `preferences` object of `ExplainTool.parseExplanationPreferences`. -/
structure ExplainPreferences where
  style : String
  audience : String
  includeExamples : Bool
  depth : String
  deriving Repr, DecidableEq

/-- `ExplainTool.parseExplanationPreferences`. -/
def ExplainTool.parseExplanationPreferences (req : ParsedRequest) : ExplainPreferences :=
  let params := jsToLower req.parameters
  { style :=
      if strIncludes params "simple" || strIncludes params "basic" then "simple"
      else if strIncludes params "detailed" || strIncludes params "comprehensive" then "detailed"
      else if strIncludes params "technical" then "technical"
      else if strIncludes params "academic" then "academic"
      else "clear"
    audience :=
      if strIncludes params "beginner" || strIncludes params "novice" then "beginner"
      else if strIncludes params "expert" || strIncludes params "advanced" then "expert"
      else if strIncludes params "child" || strIncludes params "kid" then "child"
      else "general"
    includeExamples :=
      !(strIncludes params "no examples" || strIncludes params "without examples")
    depth :=
      if strIncludes params "brief" || strIncludes params "quick" then "brief"
      else if strIncludes params "deep" || strIncludes params "thorough" then "deep"
      else "medium" }

/-- `ExplainTool.buildExplanationPrompt`. -/
def ExplainTool.buildExplanationPrompt (text : String) (p : ExplainPreferences) : String :=
  "Please explain the following text or concept:\n\n\"" ++ text ++ "\"\n\n" ++
  (if p.style = "simple" then "Provide a simple, easy-to-understand explanation. "
   else if p.style = "detailed" then "Provide a detailed, comprehensive explanation. "
   else if p.style = "technical" then "Provide a technical explanation with precise terminology. "
   else if p.style = "academic" then "Provide an academic-style explanation with proper context. "
   else "Provide a clear and accessible explanation. ") ++
  (if p.audience = "beginner" then "Assume the reader is new to this topic. "
   else if p.audience = "expert" then "Assume the reader has advanced knowledge in this field. "
   else if p.audience = "child" then "Explain it in a way a child could understand. "
   else "Assume a general educated audience. ") ++
  (if p.depth = "brief" then "Keep the explanation concise. "
   else if p.depth = "deep" then "Provide an in-depth explanation with background context. "
   else "Provide a moderately detailed explanation. ") ++
  (if p.includeExamples then "Include relevant examples to illustrate your points. " else "") ++
  "Structure your explanation clearly and logically."

/-- A sentence-break character, `[.!?]`. -/
def isSentBreak (c : Char) : Bool := c = '.' || c = '!' || c = '?'

theorem dropWhile_length_le {α : Type} (p : α → Bool) (l : List α) :
    (l.dropWhile p).length ≤ l.length := by
  induction l with
  | nil => simp
  | cons a l ih =>
    by_cases hp : p a = true
    · simp only [List.dropWhile_cons, hp, if_true]
      exact ih.trans (Nat.le_succ _)
    · simp [List.dropWhile_cons, hp]

/-- JS `s.split(/[.!?]+/)`: runs of break characters act as one separator. -/
def splitSentRuns : List Char → List (List Char)
  | [] => [[]]
  | c :: cs =>
    if isSentBreak c then
      [] :: splitSentRuns (cs.dropWhile isSentBreak)
    else
      match splitSentRuns cs with
      | t :: ts => (c :: t) :: ts
      | [] => [[c]]
termination_by l => l.length
decreasing_by
  · exact Nat.lt_succ_of_le (dropWhile_length_le _ _)
  · exact Nat.lt_succ_self _

/-- `ExplainTool.extractKeyPoints`. -/
def ExplainTool.extractKeyPoints (explanation : String) : List String :=
  let sentences :=
    ((splitSentRuns explanation.data).map String.mk).filter fun s => jsTrim s ≠ ""
  (((sentences.map jsTrim).filter fun t => 20 < t.length && t.length < 200)).take 5

/-- `ExplainTool.assessComplexity` (JS float arithmetic modelled over `ℚ`). -/
def ExplainTool.assessComplexity (text : String) : String :=
  let wordCount := getWordCount text
  let nonWsChars := (text.data.filter fun c => !c.isWhitespace).length
  let avgWordLength : ℚ := (nonWsChars : ℚ) / (wordCount : ℚ)
  let sentenceCount := (splitSentRuns text.data).length - 1
  let avgSentenceLength : ℚ := (wordCount : ℚ) / (max sentenceCount 1 : ℚ)
  if 6 < avgWordLength ∨ 20 < avgSentenceLength then "high"
  else if 4 < avgWordLength ∨ 15 < avgSentenceLength then "medium"
  else "low"

/-- `ExplainTool.estimateReadingTime`: `ceil(words / 200)`. -/
def ExplainTool.estimateReadingTime (text : String) : Nat :=
  (getWordCount text + 199) / 200

/-- The `result` object of a successful explanation. -/
structure ExplainOutput where
  explanation : String
  originalText : String
  keyPoints : List String
  complexity : String
  preferences : ExplainPreferences
  readingTime : Nat
  deriving Repr, DecidableEq

/-- The `metadata` object of `ExplainTool.execute`. -/
structure ExplainMetadata where
  originalLength : Nat
  explanationLength : Nat
  style : String
  audience : String
  deriving Repr, DecidableEq

/-- The object returned by `ExplainTool.execute`. -/
structure ExplainToolResult where
  success : Bool
  result : Option ExplainOutput
  error : Option String
  metadata : Option ExplainMetadata
  deriving Repr, DecidableEq

/-- `ExplainTool.formatExplanationResult`. -/
def ExplainTool.formatExplanationResult (explanation originalText : String)
    (preferences : ExplainPreferences) : ExplainOutput :=
  { explanation := jsTrim explanation
    originalText := originalText
    keyPoints := ExplainTool.extractKeyPoints explanation
    complexity := ExplainTool.assessComplexity originalText
    preferences := preferences
    readingTime := ExplainTool.estimateReadingTime explanation }

/-- `ExplainTool.execute`; the second component counts provider calls. -/
def ExplainTool.execute (req : ParsedRequest) (ctx : DocContext) (provider : Provider)
    (cfgMaxTokens : Nat) : ExplainToolResult × Nat :=
  let textToExplain := ExplainTool.getTextToExplain req ctx
  if jsTrim textToExplain = "" then
    ({ success := false, result := none
       error := some "No text available to explain. Please select text in the document."
       metadata := none }, 0)
  else
    let preferences := ExplainTool.parseExplanationPreferences req
    let prompt := ExplainTool.buildExplanationPrompt textToExplain preferences
    match provider prompt cfgMaxTokens with
    | .error msg =>
      ({ success := false, result := none
         error := some ("Explanation failed: " ++ msg), metadata := none }, 1)
    | .ok explanation =>
      let result := ExplainTool.formatExplanationResult explanation textToExplain preferences
      ({ success := true, result := some result, error := none
         metadata := some
           { originalLength := textToExplain.length
             explanationLength := result.explanation.length
             style := preferences.style
             audience := preferences.audience } }, 1)

/-! ## MemoryManager (gas-ready/MemoryManager.gs) -/

/-- One stored interaction record. -/
structure Interaction where
  id : String
  timestamp : Nat
  userInput : String
  tool : String
  success : Bool
  deriving Repr, DecidableEq

/-- The history limits of `MemoryManager` (defaults 50 items, 24 hours). -/
structure MemConfig where
  maxHistoryItems : Nat
  maxHistoryAge : Nat
  deriving Repr, DecidableEq

/-- The default `MemoryManager` configuration. -/
def defaultMemConfig : MemConfig :=
  { maxHistoryItems := 50, maxHistoryAge := 24 * 60 * 60 * 1000 }

/-- `MemoryManager.trimHistory`: drop entries older than the age cutoff,
then keep only the first (newest) `maxHistoryItems` entries. -/
def trimHistory (cfg : MemConfig) (now : Nat) (history : List Interaction) :
    List Interaction :=
  if (history.filter fun it => now - cfg.maxHistoryAge ≤ it.timestamp).length >
      cfg.maxHistoryItems then
    (history.filter fun it => now - cfg.maxHistoryAge ≤ it.timestamp).take cfg.maxHistoryItems
  else history.filter fun it => now - cfg.maxHistoryAge ≤ it.timestamp

/-- Build the interaction record of `MemoryManager.storeInteraction`. -/
def mkInteraction (now : Nat) (idv userInput tool : String) (success : Bool) :
    Interaction :=
  { id := idv, timestamp := now, userInput := userInput, tool := tool, success := success }

/-- `MemoryManager.storeInteraction`: `unshift` the new record, then trim. -/
def storeInteraction (cfg : MemConfig) (now : Nat) (idv userInput tool : String)
    (success : Bool) (history : List Interaction) : List Interaction :=
  trimHistory cfg now (mkInteraction now idv userInput tool success :: history)

/-! ## Provider clients (OpenAIClient part_001/part_006, GeminiClient.gs) -/

/-- `estimateTokenCount`: `Math.ceil(text.length / 4)`. -/
def estimateTokenCount (text : String) : Nat := (text.data.length + 3) / 4

/-- `OpenAIClient.exceedsTokenLimit` (part_001). -/
def exceedsTokenLimit (text : String) (limit : Nat) : Bool :=
  estimateTokenCount text > limit

/-- `OpenAIClient.truncateToTokenLimit` (part_001): truncate to
`limit*4 - 100` characters and append the literal `... [truncated]`. -/
def truncateToTokenLimit (text : String) (limit : Nat) : String :=
  if !exceedsTokenLimit text limit then text
  else jsTake text (limit * 4 - 100) ++ "... [truncated]"

/-- `truncatePrompt` (part_006 `OpenAIClient` and `GeminiClient.gs`): the
character budget is `(contextLimit - maxTokens - reservedTokens) * 4`; a
prompt over budget is cut there and gets a literal ellipsis appended.
The budget is computed over `Int` as in JS, where it can go negative. -/
def truncatePrompt (prompt : String) (maxTokens reservedTokens contextLimit : Nat) : String :=
  let maxInputChars : Int := ((contextLimit : Int) - maxTokens - reservedTokens) * 4
  if (prompt.data.length : Int) ≤ maxInputChars then prompt
  else jsTake prompt maxInputChars.toNat ++ "..."

/-- `OpenAIClient` configuration. -/
structure OAIConfig where
  apiKey : String
  model : String
  baseURL : String
  maxTokens : Nat
  timeout : Nat
  deriving Repr, DecidableEq

/-- A partial configuration handed to `OpenAIClient.updateConfig` (object
spread: present fields overwrite, absent fields are kept). -/
structure OAIPatch where
  apiKey : Option String := none
  model : Option String := none
  baseURL : Option String := none
  maxTokens : Option Nat := none
  timeout : Option Nat := none
  deriving Repr, DecidableEq

/-- The `{...this.config, ...newConfig}` merge of `updateConfig`. -/
def mergeOAI (c : OAIConfig) (p : OAIPatch) : OAIConfig :=
  { apiKey := p.apiKey.getD c.apiKey
    model := p.model.getD c.model
    baseURL := p.baseURL.getD c.baseURL
    maxTokens := p.maxTokens.getD c.maxTokens
    timeout := p.timeout.getD c.timeout }

/-- `OpenAIClient.validateConfig`: key must be non-empty and `sk-`-prefixed. -/
def OpenAIClient.validateConfig (c : OAIConfig) : Except String Unit :=
  if c.apiKey = "" then .error "OpenAI API key is required"
  else if !jsStartsWith c.apiKey "sk-" then .error "Invalid OpenAI API key format"
  else .ok ()

/-- `OpenAIClient.updateConfig`: the stored configuration is replaced by the
merge first, then the merged configuration is validated (which may throw). -/
def OpenAIClient.updateConfig (c : OAIConfig) (p : OAIPatch) :
    OAIConfig × Except String Unit :=
  let merged := mergeOAI c p
  (merged, OpenAIClient.validateConfig merged)

/-- `OpenAIClient.getConfig`: everything but the key, plus `apiKeySet`. -/
structure OAISafeConfig where
  model : String
  baseURL : String
  maxTokens : Nat
  timeout : Nat
  apiKeySet : Bool
  deriving Repr, DecidableEq

/-- `OpenAIClient.getConfig` (part_001): destructures `apiKey` away. -/
def OpenAIClient.getConfig (c : OAIConfig) : OAISafeConfig :=
  { model := c.model, baseURL := c.baseURL, maxTokens := c.maxTokens
    timeout := c.timeout, apiKeySet := c.apiKey ≠ "" }

/-- `GeminiClient` configuration. -/
structure GeminiConfig where
  apiKey : String
  model : String
  baseURL : String
  maxTokens : Nat
  timeout : Nat
  deriving Repr, DecidableEq

/-- A partial configuration handed to `GeminiClient.updateConfig`. -/
structure GeminiPatch where
  apiKey : Option String := none
  model : Option String := none
  baseURL : Option String := none
  maxTokens : Option Nat := none
  timeout : Option Nat := none
  deriving Repr, DecidableEq

/-- The `{...this.config, ...newConfig}` merge of `GeminiClient.updateConfig`. -/
def mergeGemini (c : GeminiConfig) (p : GeminiPatch) : GeminiConfig :=
  { apiKey := p.apiKey.getD c.apiKey
    model := p.model.getD c.model
    baseURL := p.baseURL.getD c.baseURL
    maxTokens := p.maxTokens.getD c.maxTokens
    timeout := p.timeout.getD c.timeout }

/-- `GeminiClient.validateConfig`: presence-only check. -/
def GeminiClient.validateConfig (c : GeminiConfig) : Except String Unit :=
  if c.apiKey = "" then .error "Gemini API key is required" else .ok ()

/-- `GeminiClient.updateConfig`: merge into the stored configuration, then
validate the merged configuration. -/
def GeminiClient.updateConfig (c : GeminiConfig) (p : GeminiPatch) :
    GeminiConfig × Except String Unit :=
  let merged := mergeGemini c p
  (merged, GeminiClient.validateConfig merged)

/-- `GeminiClient.getConfig`: destructures `apiKey` away. -/
structure GeminiSafeConfig where
  model : String
  baseURL : String
  maxTokens : Nat
  timeout : Nat
  apiKeySet : Bool
  deriving Repr, DecidableEq

/-- `GeminiClient.getConfig`. -/
def GeminiClient.getConfig (c : GeminiConfig) : GeminiSafeConfig :=
  { model := c.model, baseURL := c.baseURL, maxTokens := c.maxTokens
    timeout := c.timeout, apiKeySet := c.apiKey ≠ "" }

/-- The request URL of `GeminiClient.makeAPIRequest`: the API key is put
into the query string. -/
def geminiRequestUrl (c : GeminiConfig) (endpoint : String) : String :=
  c.baseURL ++ endpoint ++ "?key=" ++ c.apiKey

/-- The `console.log` lines `GeminiClient.makeAPIRequest` emits before the
HTTP call (`Making API request to: <url>` and the payload dump). -/
def geminiRequestLogs (c : GeminiConfig) (endpoint payload : String) : List String :=
  ["Making API request to: " ++ geminiRequestUrl c endpoint,
   "Request payload: " ++ payload]

/-! ## Dispatcher (AgentController.processRequest, part_000; part_005;
gas-ready/AgentIntegration.gs) -/

/-- A registered tool's `execute` contract: it gets the parsed request, the
document context, the provider client and the configured token budget, and
either returns a result value or throws. -/
def ToolFn : Type := ParsedRequest → DocContext → Provider → Nat → Except String String

/-- `AgentController.buildGeneralPrompt` (part_000). -/
def buildGeneralPrompt (req : ParsedRequest) (ctx : DocContext) : String :=
  "You are an AI assistant helping with Google Docs content. " ++
  (if ctx.selection ≠ "" then
    "The user has selected this text: \"" ++ ctx.selection ++ "\"\n\n"
   else "") ++
  (if ctx.content ≠ "" ∧ ctx.content ≠ ctx.selection then
    "Document context: " ++ jsTake ctx.content 1000 ++ "...\n\n"
   else "") ++
  "User request: " ++ req.parameters ++ "\n\n" ++
  "Please provide a helpful response based on the context and request."

/-- `AgentController.createDefaultTool` (part_000). -/
def defaultToolFn : ToolFn :=
  fun req ctx provider cfgMaxTokens => provider (buildGeneralPrompt req ctx) cfgMaxTokens

/-- `AgentController.selectTool` (part_000): exact name, else `general`,
else the synthesized default tool. -/
def selectToolFn (tools : List (String × ToolFn)) (parsed : ParsedRequest) :
    String × ToolFn :=
  match tools.lookup parsed.command with
  | some t => (parsed.command, t)
  | none =>
    match tools.lookup "general" with
    | some t => ("general", t)
    | none => ("general", defaultToolFn)

/-- The envelope returned by the dispatch entry points. -/
structure ProcResponse where
  success : Bool
  result : Option String
  tool : Option String
  error : Option String
  deriving Repr, DecidableEq

/-- `AgentController.processRequest` (part_000): parse, select, execute,
and normalize any thrown error into a `success:false` envelope. -/
def processRequest (tools : List (String × ToolFn)) (apiClient : Option Provider)
    (cfgMaxTokens : Nat) (input : String) (ctx : DocContext) : ProcResponse :=
  let parsed := parseUserInput input
  let selected := selectToolFn tools parsed
  let outcome : Except String String :=
    match apiClient with
    | none => .error "API client not configured"
    | some client => selected.2 parsed ctx client cfgMaxTokens
  match outcome with
  | .ok v => { success := true, result := some v, tool := some selected.1, error := none }
  | .error e => { success := false, result := none, tool := none, error := some e }

/-- `AgentController.executeCommand` (part_005): classify with
`parseCommand`, look the tool up (a miss throws and is caught), execute. -/
def executeCommand (tools : List (String × ToolFn)) (apiClient : Option Provider)
    (cfgMaxTokens : Nat) (input : String) (ctx : DocContext) : ProcResponse :=
  let parsed := parseCommand input
  match tools.lookup parsed.tool with
  | none =>
    { success := false, result := none, tool := none
      error := some ("Tool " ++ parsed.tool ++ " not found") }
  | some tool =>
    let req : ParsedRequest :=
      { command := parsed.tool, parameters := parsed.originalCommand
        isExplicitCommand := false }
    let outcome : Except String String :=
      match apiClient with
      | none => .error "API client not configured"
      | some client => tool req ctx client cfgMaxTokens
    match outcome with
    | .ok v => { success := true, result := some v, tool := some parsed.tool, error := none }
    | .error e => { success := false, result := none, tool := none, error := some e }

/-- `processAIRequestEnhanced` (gas-ready/AgentIntegration.gs): initialize
the agent (the `OpenAIClient` constructor validates the key and may throw,
caught by the outer handler), then run `executeCommand`. -/
def processAIRequestEnhanced (tools : List (String × ToolFn)) (settings : OAIConfig)
    (client : Provider) (input : String) (ctx : DocContext) : ProcResponse :=
  match OpenAIClient.validateConfig settings with
  | .error m =>
    { success := false, result := none, tool := none
      error := some ("Agent initialization failed: " ++ m) }
  | .ok _ => executeCommand tools (some client) settings.maxTokens input ctx

/-- The `ToolResult` envelope contract of the Dispatcher: `success` and
`error` are mutually exclusive and one of them is always populated. -/
def IsToolResultEnvelope (r : ProcResponse) : Prop :=
  (r.success = true ∧ r.error = none ∧ ∃ v, r.result = some v) ∨
  (r.success = false ∧ r.result = none ∧ ∃ m, r.error = some m)

/-! ## Claim theorems -/

theorem parseUserInput_escape_shape (input : String)
    (h : jsStartsWith (jsToLower (jsTrim input)) "/" = true) :
    (parseUserInput input).command =
      String.mk ((jsSplitSpace ((jsToLower (jsTrim input)).data.drop 1)).headD []) ∧
    (parseUserInput input).parameters =
      String.mk (jsJoinSpace ((jsSplitSpace ((jsToLower (jsTrim input)).data.drop 1)).drop 1)) ∧
    (parseUserInput input).isExplicitCommand = true := by
  unfold parseUserInput
  simp [h]

/-- C1 counterexample: the claim promises the first *whitespace*-delimited
token after the escape prefix, but `parseUserInput` splits on single spaces
only; for `"/foo\tbar"` the first whitespace-delimited token is `"foo"`
while the code returns `"foo\tbar"` as the command. -/
theorem parseUserInput_whitespace_counterexample :
    jsStartsWith (jsToLower (jsTrim "/foo\tbar")) "/" = true ∧
    specFirstWhitespaceToken ((jsToLower (jsTrim "/foo\tbar")).data.drop 1) = "foo" ∧
    (parseUserInput "/foo\tbar").command = "foo\tbar" ∧
    (parseUserInput "/foo\tbar").command ≠
      specFirstWhitespaceToken ((jsToLower (jsTrim "/foo\tbar")).data.drop 1) := by
  decide

/-- C1 (amended): for every input whose trimmed, lower-cased form starts
with the escape prefix `/`, the classifier takes the explicit-command path
and returns as the command exactly the first *space*-delimited token after
the prefix — even a token that appears in no keyword table, since no table
is consulted — and the rest of that string (after one separating space, or
empty when there is none) as the parameter tail. -/
theorem parseUserInput_escape_spec (input : String)
    (h : jsStartsWith (jsToLower (jsTrim input)) "/" = true) :
    (parseUserInput input).isExplicitCommand = true ∧
    (parseUserInput input).command =
      String.mk (((jsToLower (jsTrim input)).data.drop 1).takeWhile fun c => c != ' ') ∧
    ((jsToLower (jsTrim input)).data.drop 1 =
        (parseUserInput input).command.data ++ ' ' :: (parseUserInput input).parameters.data ∨
      ((parseUserInput input).parameters = "" ∧
        (jsToLower (jsTrim input)).data.drop 1 = (parseUserInput input).command.data)) := by
  rcases parseUserInput_escape_shape input h with ⟨hcmd, hpar, hexp⟩
  refine ⟨hexp, ?_, ?_⟩
  · rw [hcmd, jsSplitSpace_headD]
  · rcases hsp : jsSplitSpace ((jsToLower (jsTrim input)).data.drop 1) with _ | ⟨p, ps⟩
    · exact absurd hsp (jsSplitSpace_ne_nil _)
    · have hjoin := jsJoin_jsSplit ((jsToLower (jsTrim input)).data.drop 1)
      rw [hsp] at hjoin
      cases ps with
      | nil =>
        right
        refine ⟨?_, ?_⟩
        · rw [hpar, hsp]
          rfl
        · rw [hcmd, hsp]
          simpa [jsJoinSpace] using hjoin.symm
      | cons q qs =>
        left
        rw [hcmd, hpar, hsp]
        simpa [jsJoinSpace] using hjoin.symm

theorem parseUserInput_escape_spec_witness :
    (jsStartsWith (jsToLower (jsTrim "/foo bar")) "/" = true) ∧
    (parseUserInput "/foo bar").command =
      String.mk (((jsToLower (jsTrim "/foo bar")).data.drop 1).takeWhile fun c => c != ' ') ∧
    (parseUserInput "/foo bar").command = "foo" ∧
    (parseUserInput "/foo bar").parameters = "bar" :=
  ⟨by decide, (parseUserInput_escape_spec "/foo bar" (by decide)).2.1, by decide, by decide⟩

/-- C2: both classifiers implement exact first-match semantics over their
fixed, ordered tables on the lower-cased text: the first command any of
whose keywords or patterns matches wins (earlier table entries beat later
ones), and when nothing matches the catch-all is returned — `general` for
`inferCommand`, `generate` for the alternative `parseCommand` tool set.
Both are total functions, so no exception is ever raised. -/
theorem classifier_first_match_spec (t c : String) :
    FirstHit inferKeywords (fun ws => ws.any fun w => strIncludes t w) "general"
      (inferCommand t) ∧
    FirstHit parseCommandPatterns (fun ps => ps.any fun p => patTest p (jsTrim (jsToLower c)))
      "generate" ((parseCommand c).tool) := by
  constructor
  · rcases find?_spec (fun kw : String × List String => kw.2.any fun w => strIncludes t w)
        inferKeywords with ⟨hn, hall⟩ | ⟨i, hlt, hf, ht, he⟩
    · exact Or.inl ⟨by unfold inferCommand; rw [hn], fun e he' => hall e he'⟩
    · exact Or.inr ⟨i, hlt, by unfold inferCommand; rw [hf], ht, he⟩
  · rcases find?_spec (fun tp : String × List Pat => tp.2.any fun p => patTest p (jsTrim (jsToLower c)))
        parseCommandPatterns with ⟨hn, hall⟩ | ⟨i, hlt, hf, ht, he⟩
    · exact Or.inl ⟨by simp only [parseCommand]; rw [hn], fun e he' => hall e he'⟩
    · exact Or.inr ⟨i, hlt, by simp only [parseCommand]; rw [hf], ht, he⟩

/-- C3: the dispatch entry points always return a `ToolResult` envelope:
any error raised by the selected tool or the provider client (including a
missing API client, an unknown tool, or a failed pre-flight key validation
during agent initialization) is caught and converted into
`success:false, error:message`; no exception propagates to the caller. -/
theorem dispatch_returns_envelope (tools : List (String × ToolFn))
    (apiClient : Option Provider) (settings : OAIConfig) (client : Provider)
    (cfgMaxTokens : Nat) (input : String) (ctx : DocContext) :
    IsToolResultEnvelope (processRequest tools apiClient cfgMaxTokens input ctx) ∧
    IsToolResultEnvelope (executeCommand tools apiClient cfgMaxTokens input ctx) ∧
    IsToolResultEnvelope (processAIRequestEnhanced tools settings client input ctx) := by
  have hex : ∀ (ac : Option Provider) (mt : Nat),
      IsToolResultEnvelope (executeCommand tools ac mt input ctx) := by
    intro ac mt
    unfold IsToolResultEnvelope executeCommand
    rcases hlk : tools.lookup (parseCommand input).tool with _ | tool
    · simp [hlk]
    · rcases hout : (match ac with
        | none => Except.error "API client not configured"
        | some cl =>
          tool { command := (parseCommand input).tool
                 parameters := (parseCommand input).originalCommand
                 isExplicitCommand := false } ctx cl mt) with v | e
      · simp [hlk, hout]
      · simp [hlk, hout]
  refine ⟨?_, hex apiClient cfgMaxTokens, ?_⟩
  · unfold IsToolResultEnvelope processRequest
    rcases hout : (match apiClient with
      | none => Except.error "API client not configured"
      | some cl =>
        (selectToolFn tools (parseUserInput input)).2 (parseUserInput input) ctx cl
          cfgMaxTokens) with v | e
    · simp [hout]
    · simp [hout]
  · unfold processAIRequestEnhanced
    rcases hv : OpenAIClient.validateConfig settings with e | u
    · simp [IsToolResultEnvelope]
    · exact hex (some client) settings.maxTokens

theorem rwExtractStyle_mem (s : String) :
    RewriteTool.extractStyle s ∈
      ["improve", "formal", "casual", "academic", "creative", "simple"] := by
  unfold RewriteTool.extractStyle
  cases hf : rwStyles.find? (fun e => e.2.any fun k => strIncludes s k) with
  | none => simp
  | some e =>
    have he := List.mem_of_find?_eq_some hf
    simp only [rwStyles, List.mem_cons, List.not_mem_nil, or_false] at he
    rcases he with rfl | rfl | rfl | rfl | rfl | rfl <;> simp

theorem rwExtractTone_mem (s : String) :
    RewriteTool.extractTone s ∈
      ["neutral", "professional", "friendly", "persuasive", "authoritative", "empathetic"] := by
  unfold RewriteTool.extractTone
  cases hf : rwTones.find? (fun e => e.2.any fun k => strIncludes s k) with
  | none => simp
  | some e =>
    have he := List.mem_of_find?_eq_some hf
    simp only [rwTones, List.mem_cons, List.not_mem_nil, or_false] at he
    rcases he with rfl | rfl | rfl | rfl | rfl | rfl <;> simp

theorem rwExtractLengthPreference_mem (s : String) :
    RewriteTool.extractLengthPreference s ∈ ["shorter", "longer", "same"] := by
  unfold RewriteTool.extractLengthPreference
  split
  · simp
  · split <;> simp

theorem sumExtractStyle_mem (s : String) :
    SummarizeTool.extractStyle s ∈ ["bullet-points", "detailed", "concise"] := by
  simp only [SummarizeTool.extractStyle]
  split
  · simp
  · split <;> simp

theorem sumExtractLength_mem (s : String) :
    SummarizeTool.extractLength s ∈ ["short", "long", "medium"] := by
  simp only [SummarizeTool.extractLength]
  split
  · simp
  · split <;> simp

theorem rwExtractStyle_idem (s : String) :
    RewriteTool.extractStyle (RewriteTool.extractStyle s) = RewriteTool.extractStyle s := by
  have h := rwExtractStyle_mem s
  simp only [List.mem_cons, List.not_mem_nil, or_false] at h
  rcases h with h | h | h | h | h | h <;> rw [h] <;> decide

theorem rwExtractTone_idem (s : String) :
    RewriteTool.extractTone (RewriteTool.extractTone s) = RewriteTool.extractTone s := by
  have h := rwExtractTone_mem s
  simp only [List.mem_cons, List.not_mem_nil, or_false] at h
  rcases h with h | h | h | h | h | h <;> rw [h] <;> decide

theorem rwExtractLengthPreference_idem (s : String) :
    RewriteTool.extractLengthPreference (RewriteTool.extractLengthPreference s) =
      RewriteTool.extractLengthPreference s := by
  have h := rwExtractLengthPreference_mem s
  simp only [List.mem_cons, List.not_mem_nil, or_false] at h
  rcases h with h | h | h <;> rw [h] <;> decide

theorem sumExtractStyle_idem (s : String) :
    SummarizeTool.extractStyle (SummarizeTool.extractStyle s) =
      SummarizeTool.extractStyle s := by
  have h := sumExtractStyle_mem s
  simp only [List.mem_cons, List.not_mem_nil, or_false] at h
  rcases h with h | h | h <;> rw [h] <;> decide

theorem sumExtractLength_idem (s : String) :
    SummarizeTool.extractLength (SummarizeTool.extractLength s) =
      SummarizeTool.extractLength s := by
  have h := sumExtractLength_mem s
  simp only [List.mem_cons, List.not_mem_nil, or_false] at h
  rcases h with h | h | h <;> rw [h] <;> decide

theorem rwExtractStyle_default (s : String)
    (h : ∀ e ∈ rwStyles, ∀ k ∈ e.2, strIncludes s k = false) :
    RewriteTool.extractStyle s = "improve" := by
  have hf : rwStyles.find? (fun e => e.2.any fun k => strIncludes s k) = none := by
    rw [List.find?_eq_none]
    intro e he
    simp only [List.any_eq_true, not_exists, not_and]
    intro k hk
    simp [h e he k hk]
  unfold RewriteTool.extractStyle
  rw [hf]

theorem rwExtractTone_default (s : String)
    (h : ∀ e ∈ rwTones, ∀ k ∈ e.2, strIncludes s k = false) :
    RewriteTool.extractTone s = "neutral" := by
  have hf : rwTones.find? (fun e => e.2.any fun k => strIncludes s k) = none := by
    rw [List.find?_eq_none]
    intro e he
    simp only [List.any_eq_true, not_exists, not_and]
    intro k hk
    simp [h e he k hk]
  unfold RewriteTool.extractTone
  rw [hf]

theorem rwExtractLengthPreference_default (s : String)
    (h : ∀ k ∈ ["shorter", "concise", "brief", "longer", "expand", "elaborate"],
      strIncludes s k = false) :
    RewriteTool.extractLengthPreference s = "same" := by
  unfold RewriteTool.extractLengthPreference
  rw [h "shorter" (by simp), h "concise" (by simp), h "brief" (by simp),
    h "longer" (by simp), h "expand" (by simp), h "elaborate" (by simp)]
  simp

theorem sumExtractStyle_default (s : String)
    (h : ∀ k ∈ ["bullet", "points", "list", "detailed", "comprehensive", "thorough"],
      strIncludes (jsToLower s) k = false) :
    SummarizeTool.extractStyle s = "concise" := by
  simp only [SummarizeTool.extractStyle]
  rw [h "bullet" (by simp), h "points" (by simp), h "list" (by simp),
    h "detailed" (by simp), h "comprehensive" (by simp), h "thorough" (by simp)]
  simp

theorem sumExtractLength_default (s : String)
    (h : ∀ k ∈ ["short", "brief", "quick", "long", "detailed", "extensive"],
      strIncludes (jsToLower s) k = false) :
    SummarizeTool.extractLength s = "medium" := by
  simp only [SummarizeTool.extractLength]
  rw [h "short" (by simp), h "brief" (by simp), h "quick" (by simp),
    h "long" (by simp), h "detailed" (by simp), h "extensive" (by simp)]
  simp

/-- C4: the per-field parameter extractors are total and idempotent: for
every string input each extractor returns a value of its fixed enumeration
(never a missing value), applying an extractor to its own output returns
that output unchanged, and when no keyword of any category occurs in the
(lower-cased) input the documented default is returned. -/
theorem extractors_total_idempotent (s : String) :
    (RewriteTool.extractStyle s ∈
        ["improve", "formal", "casual", "academic", "creative", "simple"] ∧
      RewriteTool.extractStyle (RewriteTool.extractStyle s) = RewriteTool.extractStyle s) ∧
    (RewriteTool.extractTone s ∈
        ["neutral", "professional", "friendly", "persuasive", "authoritative", "empathetic"] ∧
      RewriteTool.extractTone (RewriteTool.extractTone s) = RewriteTool.extractTone s) ∧
    (RewriteTool.extractLengthPreference s ∈ ["shorter", "longer", "same"] ∧
      RewriteTool.extractLengthPreference (RewriteTool.extractLengthPreference s) =
        RewriteTool.extractLengthPreference s) ∧
    (SummarizeTool.extractStyle s ∈ ["bullet-points", "detailed", "concise"] ∧
      SummarizeTool.extractStyle (SummarizeTool.extractStyle s) =
        SummarizeTool.extractStyle s) ∧
    (SummarizeTool.extractLength s ∈ ["short", "long", "medium"] ∧
      SummarizeTool.extractLength (SummarizeTool.extractLength s) =
        SummarizeTool.extractLength s) ∧
    ((∀ e ∈ rwStyles, ∀ k ∈ e.2, strIncludes s k = false) →
      RewriteTool.extractStyle s = "improve") ∧
    ((∀ e ∈ rwTones, ∀ k ∈ e.2, strIncludes s k = false) →
      RewriteTool.extractTone s = "neutral") ∧
    ((∀ k ∈ ["shorter", "concise", "brief", "longer", "expand", "elaborate"],
        strIncludes s k = false) →
      RewriteTool.extractLengthPreference s = "same") ∧
    ((∀ k ∈ ["bullet", "points", "list", "detailed", "comprehensive", "thorough"],
        strIncludes (jsToLower s) k = false) →
      SummarizeTool.extractStyle s = "concise") ∧
    ((∀ k ∈ ["short", "brief", "quick", "long", "detailed", "extensive"],
        strIncludes (jsToLower s) k = false) →
      SummarizeTool.extractLength s = "medium") :=
  ⟨⟨rwExtractStyle_mem s, rwExtractStyle_idem s⟩,
   ⟨rwExtractTone_mem s, rwExtractTone_idem s⟩,
   ⟨rwExtractLengthPreference_mem s, rwExtractLengthPreference_idem s⟩,
   ⟨sumExtractStyle_mem s, sumExtractStyle_idem s⟩,
   ⟨sumExtractLength_mem s, sumExtractLength_idem s⟩,
   rwExtractStyle_default s, rwExtractTone_default s,
   rwExtractLengthPreference_default s, sumExtractStyle_default s,
   sumExtractLength_default s⟩

theorem strData_append (s t : String) : (s ++ t).data = s.data ++ t.data := by
  cases s; cases t; rfl

theorem data_mk (l : List Char) : (String.mk l).data = l := rfl

/-- C5: prompt truncation is a no-op on prompts whose estimated tokens fit
the budget, and on over-budget prompts it cuts at the character budget,
appends exactly one truncation marker (`...`, resp. `... [truncated]`),
and the estimated token count of the result is strictly below the context
ceiling (resp. the token limit).  Stated for both `truncatePrompt`
(part_006 / GeminiClient) and `truncateToTokenLimit` (part_001), under the
source's budget sanity conditions (which hold for all shipped defaults:
8192/4096/30000 ceilings, 4000 maxTokens, 500 reserved). -/
theorem truncation_no_op_or_marker (prompt text : String)
    (maxTokens reservedTokens contextLimit limit : Nat)
    (h1 : maxTokens + reservedTokens ≤ contextLimit)
    (h2 : 2 ≤ maxTokens + reservedTokens) (h3 : 25 ≤ limit) :
    (estimateTokenCount prompt + maxTokens + reservedTokens ≤ contextLimit →
      truncatePrompt prompt maxTokens reservedTokens contextLimit = prompt) ∧
    (contextLimit < estimateTokenCount prompt + maxTokens + reservedTokens →
      truncatePrompt prompt maxTokens reservedTokens contextLimit =
        jsTake prompt ((contextLimit - maxTokens - reservedTokens) * 4) ++ "..." ∧
      estimateTokenCount (truncatePrompt prompt maxTokens reservedTokens contextLimit) <
        contextLimit) ∧
    (estimateTokenCount text ≤ limit → truncateToTokenLimit text limit = text) ∧
    (limit < estimateTokenCount text →
      truncateToTokenLimit text limit =
        jsTake text (limit * 4 - 100) ++ "... [truncated]" ∧
      estimateTokenCount (truncateToTokenLimit text limit) < limit) := by
  have hdots : ("..." : String).data.length = 3 := rfl
  have hmark : ("... [truncated]" : String).data.length = 15 := rfl
  refine ⟨?_, ?_, ?_, ?_⟩
  · intro h
    have hc : (prompt.data.length : Int) ≤ ((contextLimit : Int) - maxTokens - reservedTokens) * 4 := by
      unfold estimateTokenCount at h
      omega
    unfold truncatePrompt
    rw [if_pos hc]
  · intro h
    have hlen : (contextLimit - maxTokens - reservedTokens) * 4 < prompt.data.length := by
      unfold estimateTokenCount at h
      omega
    have hc : ¬ ((prompt.data.length : Int) ≤ ((contextLimit : Int) - maxTokens - reservedTokens) * 4) := by
      omega
    have htn : (((contextLimit : Int) - maxTokens - reservedTokens) * 4).toNat =
        (contextLimit - maxTokens - reservedTokens) * 4 := by
      omega
    refine ⟨?_, ?_⟩
    · unfold truncatePrompt
      rw [if_neg hc, htn]
    · unfold truncatePrompt
      rw [if_neg hc, htn]
      unfold estimateTokenCount
      rw [strData_append]
      simp only [jsTake, data_mk, List.length_append, List.length_take]
      rw [Nat.min_eq_left hlen.le, hdots]
      omega
  · intro h
    unfold estimateTokenCount at h
    have hb : exceedsTokenLimit text limit = false := by
      simp only [exceedsTokenLimit, estimateTokenCount, decide_eq_false_iff_not, not_lt]
      omega
    unfold truncateToTokenLimit
    rw [hb]
    simp
  · intro h
    unfold estimateTokenCount at h
    have hlen : limit * 4 - 100 < text.data.length := by omega
    have hb : exceedsTokenLimit text limit = true := by
      simp only [exceedsTokenLimit, estimateTokenCount, decide_eq_true_eq]
      omega
    refine ⟨?_, ?_⟩
    · unfold truncateToTokenLimit
      rw [hb]
      simp
    · unfold truncateToTokenLimit
      rw [hb]
      simp only [Bool.not_true]
      rw [if_neg (by decide : ¬ (false = true))]
      unfold estimateTokenCount
      rw [strData_append]
      simp only [jsTake, data_mk, List.length_append, List.length_take]
      rw [Nat.min_eq_left hlen.le, hmark]
      omega

theorem truncation_no_op_or_marker_witness :
    4 + 3 ≤ 10 ∧ 2 ≤ 4 + 3 ∧ 25 ≤ 25 ∧
    truncatePrompt "aaaaaaaaaaaaa" 4 3 10 = "aaaaaaaaaaaa..." ∧
    truncateToTokenLimit (String.mk (List.replicate 101 'a')) 25 = "... [truncated]" := by
  have h := truncation_no_op_or_marker "aaaaaaaaaaaaa" (String.mk (List.replicate 101 'a'))
    4 3 10 25 (by decide) (by decide) (by decide)
  refine ⟨by decide, by decide, by decide, ?_, ?_⟩
  · exact ((h.2.1 (by decide)).1).trans (by decide)
  · exact ((h.2.2.2 (by decide)).1).trans (by decide)

theorem trimHistory_length_le (cfg : MemConfig) (now : Nat) (l : List Interaction) :
    (trimHistory cfg now l).length ≤ cfg.maxHistoryItems := by
  simp only [trimHistory]
  split
  · simp [List.length_take]
  · next h => exact Nat.le_of_not_lt h

theorem trimHistory_mem_fresh (cfg : MemConfig) (now : Nat) (l : List Interaction)
    (it : Interaction) (hit : it ∈ trimHistory cfg now l) :
    it ∈ l.filter (fun x => decide (now - cfg.maxHistoryAge ≤ x.timestamp)) := by
  simp only [trimHistory] at hit
  split at hit
  · exact List.mem_of_mem_take hit
  · exact hit

theorem trimHistory_age (cfg : MemConfig) (now : Nat) (l : List Interaction) :
    ∀ it ∈ trimHistory cfg now l, now ≤ it.timestamp + cfg.maxHistoryAge := by
  intro it hit
  have h := (List.mem_filter.mp (trimHistory_mem_fresh cfg now l it hit)).2
  simp only [decide_eq_true_eq] at h
  omega

theorem trimHistory_sublist (cfg : MemConfig) (now : Nat) (l : List Interaction) :
    (trimHistory cfg now l).Sublist l := by
  simp only [trimHistory]
  split
  · exact (List.take_sublist _ _).trans (List.filter_sublist _)
  · exact List.filter_sublist _

theorem trimHistory_oldest_evicted (cfg : MemConfig) (now : Nat) (l : List Interaction)
    (hsorted : List.Pairwise (fun u v => v.timestamp ≤ u.timestamp) l) :
    ∀ a ∈ trimHistory cfg now l, ∀ x ∈ l, x ∉ trimHistory cfg now l →
      x.timestamp ≤ a.timestamp := by
  intro a ha x hx hnx
  have hax := trimHistory_mem_fresh cfg now l a ha
  by_cases hxf : x ∈ l.filter (fun y => decide (now - cfg.maxHistoryAge ≤ y.timestamp))
  · by_cases hb : (l.filter (fun y => decide (now - cfg.maxHistoryAge ≤ y.timestamp))).length >
        cfg.maxHistoryItems
    · unfold trimHistory at ha hnx
      rw [if_pos hb] at ha hnx
      have hxf2 : x ∈
          (l.filter (fun y => decide (now - cfg.maxHistoryAge ≤ y.timestamp))).take
            cfg.maxHistoryItems ++
          (l.filter (fun y => decide (now - cfg.maxHistoryAge ≤ y.timestamp))).drop
            cfg.maxHistoryItems := by
        rw [List.take_append_drop]
        exact hxf
      have hxd : x ∈ (l.filter (fun y => decide (now - cfg.maxHistoryAge ≤ y.timestamp))).drop
          cfg.maxHistoryItems := by
        rcases List.mem_append.mp hxf2 with hmem | hmem
        · exact absurd hmem hnx
        · exact hmem
      have hpf : List.Pairwise (fun u v => v.timestamp ≤ u.timestamp)
          (l.filter (fun y => decide (now - cfg.maxHistoryAge ≤ y.timestamp))) :=
        List.Pairwise.filter _ hsorted
      have hpa := List.pairwise_append.mp (show List.Pairwise
          (fun u v => v.timestamp ≤ u.timestamp)
          ((l.filter (fun y => decide (now - cfg.maxHistoryAge ≤ y.timestamp))).take
            cfg.maxHistoryItems ++
           (l.filter (fun y => decide (now - cfg.maxHistoryAge ≤ y.timestamp))).drop
            cfg.maxHistoryItems) by
        rw [List.take_append_drop]
        exact hpf)
      exact hpa.2.2 a ha x hxd
    · unfold trimHistory at hnx
      rw [if_neg hb] at hnx
      exact absurd hxf hnx
  · have h1 := (List.mem_filter.mp hax).2
    have h2 : ¬ (decide (now - cfg.maxHistoryAge ≤ x.timestamp) = true) := fun hc =>
      hxf (List.mem_filter.mpr ⟨hx, hc⟩)
    simp only [decide_eq_true_eq] at h1 h2
    omega

/-- C6: after any `storeInteraction`, however the log looked before, the
history holds at most `maxHistoryItems` entries, every remaining entry has
age at most `maxHistoryAge`, the new history is a sublist of the new record
prepended to the old history (entries are only evicted, never mutated), and
— when timestamps are monotone (newest first), as a monotone clock
guarantees — every evicted entry is at least as old as every kept one. -/
theorem storeInteraction_invariant (cfg : MemConfig) (now : Nat)
    (idv u tl : String) (b : Bool) (history : List Interaction)
    (hsorted : List.Pairwise (fun x y => y.timestamp ≤ x.timestamp)
      (mkInteraction now idv u tl b :: history)) :
    (storeInteraction cfg now idv u tl b history).length ≤ cfg.maxHistoryItems ∧
    (∀ it ∈ storeInteraction cfg now idv u tl b history,
      now ≤ it.timestamp + cfg.maxHistoryAge) ∧
    (storeInteraction cfg now idv u tl b history).Sublist
      (mkInteraction now idv u tl b :: history) ∧
    (∀ a ∈ storeInteraction cfg now idv u tl b history,
      ∀ x ∈ mkInteraction now idv u tl b :: history,
        x ∉ storeInteraction cfg now idv u tl b history → x.timestamp ≤ a.timestamp) := by
  refine ⟨trimHistory_length_le cfg now _, trimHistory_age cfg now _,
    trimHistory_sublist cfg now _, trimHistory_oldest_evicted cfg now _ hsorted⟩

theorem storeInteraction_invariant_witness :
    List.Pairwise (fun x y => y.timestamp ≤ x.timestamp)
      (mkInteraction 1000 "i" "u" "t" true ::
        [{ id := "b", timestamp := 990, userInput := "u", tool := "t", success := true },
         { id := "c", timestamp := 950, userInput := "u", tool := "t", success := true },
         { id := "d", timestamp := 100, userInput := "u", tool := "t", success := true }]) ∧
    (storeInteraction { maxHistoryItems := 2, maxHistoryAge := 100 } 1000 "i" "u" "t" true
      [{ id := "b", timestamp := 990, userInput := "u", tool := "t", success := true },
       { id := "c", timestamp := 950, userInput := "u", tool := "t", success := true },
       { id := "d", timestamp := 100, userInput := "u", tool := "t", success := true }]).length ≤ 2 :=
  ⟨by decide,
   (storeInteraction_invariant { maxHistoryItems := 2, maxHistoryAge := 100 } 1000 "i" "u" "t"
      true _ (by decide)).1⟩

/-- C7 counterexample: the claim's hypotheses — no quoted override in the
request, empty selection, empty document content — are all met by the
request `"what is recursion"`, yet `ExplainTool.execute` extracts the
concept from the `what is ...` phrasing, invokes the provider once and
succeeds instead of returning a `No text available` failure with zero
provider calls. -/
theorem explain_what_is_counterexample :
    scanExplainQuote ("what is recursion").data = none ∧
    (ExplainTool.execute (parseUserInput "what is recursion")
      { selection := "", content := "" } (fun _ _ => Except.ok "An explanation.") 4000).2 = 1 ∧
    (ExplainTool.execute (parseUserInput "what is recursion")
      { selection := "", content := "" } (fun _ _ => Except.ok "An explanation.") 4000).1.success
      = true := by
  decide

/-- C7 (amended): for the tools that require subject text, if the quoted
override, the selection and the document content are all empty or
whitespace — and, for the explain tool only, the request additionally
contains no `explain "..."` quoted concept and no `what is/does/are ...`
phrase, either of which would supply subject text from the request itself —
then `execute` returns `success:false` with an error message beginning
`No text available`, and the provider client is never invoked (the call
count is zero). -/
theorem no_text_available_guard (req : ParsedRequest) (ctx : DocContext)
    (provider : Provider) (cfgMaxTokens : Nat)
    (hsel : jsTrim ctx.selection = "")
    (hcont : jsTrim ctx.content = "")
    (hq1 : ∀ g, scanSummQuote req.parameters.data = some g → jsTrim (String.mk g) = "")
    (hq2 : ∀ g, scanQuoted req.parameters.data = some g → jsTrim (String.mk g) = "")
    (hq3 : ∀ g, scanExplainQuote req.parameters.data = some g → jsTrim (String.mk g) = "")
    (hq4 : ∀ g, scanWhatMatch req.parameters.data = some g → jsTrim (String.mk g) = "") :
    (SummarizeTool.execute req ctx provider).2 = 0 ∧
    (SummarizeTool.execute req ctx provider).1.success = false ∧
    (SummarizeTool.execute req ctx provider).1.error =
      some "No text available to summarize. Please select text or ensure document has content." ∧
    (RewriteTool.execute req ctx provider cfgMaxTokens).2 = 0 ∧
    (RewriteTool.execute req ctx provider cfgMaxTokens).1.success = false ∧
    (RewriteTool.execute req ctx provider cfgMaxTokens).1.error =
      some "No text available to rewrite. Please select text in the document." ∧
    (ExplainTool.execute req ctx provider cfgMaxTokens).2 = 0 ∧
    (ExplainTool.execute req ctx provider cfgMaxTokens).1.success = false ∧
    (ExplainTool.execute req ctx provider cfgMaxTokens).1.error =
      some "No text available to explain. Please select text in the document." := by
  have htrimtrim : ∀ g : List Char, jsTrim (String.mk g) = "" →
      jsTrim (jsTrim (String.mk g)) = "" := by
    intro g hg
    rw [hg]
    rfl
  have hs : jsTrim (SummarizeTool.getTextToSummarize req ctx) = "" := by
    unfold SummarizeTool.getTextToSummarize
    rcases hq : (if strIncludes req.parameters "summarize:" then
        scanSummQuote req.parameters.data else none) with _ | g
    · simp only [hq]
      rw [if_neg (by simp [hsel])]
      exact hcont
    · simp only [hq]
      by_cases hb : strIncludes req.parameters "summarize:" = true
      · rw [if_pos hb] at hq
        exact hq1 g hq
      · rw [if_neg hb] at hq
        exact absurd hq (by simp)
  have hr : jsTrim (RewriteTool.getTextToRewrite req ctx) = "" := by
    unfold RewriteTool.getTextToRewrite
    rcases hq : scanQuoted req.parameters.data with _ | g
    · simp only [hq]
      rw [if_neg (by simp [hsel])]
      rfl
    · simp only [hq]
      exact hq2 g hq
  have he : jsTrim (ExplainTool.getTextToExplain req ctx) = "" := by
    unfold ExplainTool.getTextToExplain
    rcases hq : scanExplainQuote req.parameters.data with _ | g
    · simp only [hq]
      rcases hw : scanWhatMatch req.parameters.data with _ | g2
      · simp only [hw]
        rw [if_neg (by simp [hsel])]
        rfl
      · simp only [hw]
        exact htrimtrim g2 (hq4 g2 hw)
    · simp only [hq]
      exact hq3 g hq
  refine ⟨?_, ?_, ?_, ?_, ?_, ?_, ?_, ?_, ?_⟩ <;>
    simp [SummarizeTool.execute, RewriteTool.execute, ExplainTool.execute, hs, hr, he]

theorem no_text_available_guard_witness :
    jsTrim ("" : String) = "" ∧
    (SummarizeTool.execute { command := "summarize", parameters := "", isExplicitCommand := false }
      { selection := "", content := "" } (fun _ _ => Except.ok "stub")).2 = 0 ∧
    (ExplainTool.execute { command := "summarize", parameters := "", isExplicitCommand := false }
      { selection := "", content := "" } (fun _ _ => Except.ok "stub") 4000).1.success = false := by
  have hnone1 : scanSummQuote ("" : String).data = none := by decide
  have hnone2 : scanQuoted ("" : String).data = none := by decide
  have hnone3 : scanExplainQuote ("" : String).data = none := by decide
  have hnone4 : scanWhatMatch ("" : String).data = none := by decide
  have h := no_text_available_guard
    { command := "summarize", parameters := "", isExplicitCommand := false }
    { selection := "", content := "" } (fun _ _ => Except.ok "stub") 4000
    (by decide) (by decide)
    (fun g hg => by simp [hnone1] at hg)
    (fun g hg => by simp [hnone2] at hg)
    (fun g hg => by simp [hnone3] at hg)
    (fun g hg => by simp [hnone4] at hg)
  exact ⟨by decide, h.1, h.2.2.2.2.2.2.2.1⟩

/-- C8 counterexample: in the end-to-end summarize scenario the claim says
`metadata.compressionRatio` is the word ratio `summaryWords/originalWords
= 0.3`, but the code computes it as the character-length ratio
`summary.length / originalText.length`, which is `"0.32"` here; the word
ratio `"0.30"` is stored in `result.statistics.compressionRatio` instead. -/
theorem summarize_metadata_ratio_counterexample :
    ((SummarizeTool.execute (parseUserInput "Summarize this text")
        { selection := "A B C D E F G H I J", content := "" }
        (fun _ _ => Except.ok "A B C.")).1.metadata.map SummMetadata.compressionRatio)
      = some "0.32" ∧
    toFixed2 (getWordCount "A B C.") (getWordCount "A B C D E F G H I J") = "0.30" ∧
    ((SummarizeTool.execute (parseUserInput "Summarize this text")
        { selection := "A B C D E F G H I J", content := "" }
        (fun _ _ => Except.ok "A B C.")).1.metadata.map SummMetadata.compressionRatio)
      ≠ some (toFixed2 (getWordCount "A B C.") (getWordCount "A B C D E F G H I J")) := by
  decide

/-- C8 (amended): for input `"Summarize this text"`, the 10-word selection
`"A B C D E F G H I J"` and a provider stub returning `"A B C."`, the
summarize tool succeeds with `result.summary = "A B C."`; the word ratio
`summaryWords/originalWords = 3/10`, rounded to two decimals as `"0.30"`,
is reported in `result.statistics.compressionRatio`, while
`metadata.compressionRatio` is the character-length ratio `6/19 = "0.32"`. -/
theorem summarize_scenario_spec :
    (SummarizeTool.execute (parseUserInput "Summarize this text")
      { selection := "A B C D E F G H I J", content := "" }
      (fun _ _ => Except.ok "A B C.")).1.success = true ∧
    ((SummarizeTool.execute (parseUserInput "Summarize this text")
        { selection := "A B C D E F G H I J", content := "" }
        (fun _ _ => Except.ok "A B C.")).1.result.map SummOutput.summary) = some "A B C." ∧
    ((SummarizeTool.execute (parseUserInput "Summarize this text")
        { selection := "A B C D E F G H I J", content := "" }
        (fun _ _ => Except.ok "A B C.")).1.result.map
      (fun r => r.statistics.compressionRatio)) = some "0.30" ∧
    ((SummarizeTool.execute (parseUserInput "Summarize this text")
        { selection := "A B C D E F G H I J", content := "" }
        (fun _ _ => Except.ok "A B C.")).1.metadata.map SummMetadata.compressionRatio)
      = some "0.32" ∧
    (SummarizeTool.execute (parseUserInput "Summarize this text")
      { selection := "A B C D E F G H I J", content := "" }
      (fun _ _ => Except.ok "A B C.")).2 = 1 := by
  decide

/-- C9: the claim that the API key never appears in any object returned to
the UI nor in any log line is broken by the code: `GeminiClient.getConfig`
does redact the key (no `apiKey` field, only `apiKeySet`), but
`GeminiClient.makeAPIRequest` logs `Making API request to: <url>` where the
URL embeds `?key=<apiKey>`, so every request leaks the key into the log. -/
theorem gemini_request_logs_leak_apiKey :
    (GeminiClient.getConfig
      { apiKey := "AIza-test-secret", model := "gemini-1.5-flash"
        baseURL := "https://generativelanguage.googleapis.com/v1beta"
        maxTokens := 4000, timeout := 30000 }).apiKeySet = true ∧
    ((geminiRequestLogs
      { apiKey := "AIza-test-secret", model := "gemini-1.5-flash"
        baseURL := "https://generativelanguage.googleapis.com/v1beta"
        maxTokens := 4000, timeout := 30000 }
      "/models/gemini-1.5-flash:generateContent" "test").any
      fun line => strIncludes line "AIza-test-secret") = true := by
  decide

/-- C10: for both provider clients, `updateConfig` merges the new values
into the stored configuration before validating: when the merged key is
invalid (empty, or not `sk-`-prefixed for the OpenAI client) the call
throws, but the stored configuration has already been replaced by the
merged invalid values — it is not left unchanged on error. -/
theorem updateConfig_replaces_before_validation (c : OAIConfig) (p : OAIPatch)
    (g : GeminiConfig) (q : GeminiPatch) (k k' : String)
    (hp : p.apiKey = some k)
    (hbad : k = "" ∨ jsStartsWith k "sk-" = false)
    (hq : q.apiKey = some k') (hbad' : k' = "") :
    (OpenAIClient.updateConfig c p).1 = mergeOAI c p ∧
    (OpenAIClient.updateConfig c p).1.apiKey = k ∧
    (∃ e, (OpenAIClient.updateConfig c p).2 = Except.error e) ∧
    (GeminiClient.updateConfig g q).1 = mergeGemini g q ∧
    (GeminiClient.updateConfig g q).1.apiKey = k' ∧
    (∃ e, (GeminiClient.updateConfig g q).2 = Except.error e) := by
  have hk : (mergeOAI c p).apiKey = k := by simp [mergeOAI, hp]
  have hk' : (mergeGemini g q).apiKey = k' := by simp [mergeGemini, hq]
  refine ⟨rfl, hk, ?_, rfl, hk', ?_⟩
  · simp only [OpenAIClient.updateConfig, OpenAIClient.validateConfig]
    rw [hk]
    rcases hbad with hb | hb
    · exact ⟨"OpenAI API key is required", by simp [hb]⟩
    · by_cases hz : k = ""
      · exact ⟨"OpenAI API key is required", by simp [hz]⟩
      · exact ⟨"Invalid OpenAI API key format", by simp [hz, hb]⟩
  · simp only [GeminiClient.updateConfig, GeminiClient.validateConfig]
    rw [hk']
    exact ⟨"Gemini API key is required", by simp [hbad']⟩

theorem updateConfig_replaces_before_validation_witness :
    ({ apiKey := some "bad-key" : OAIPatch }).apiKey = some "bad-key" ∧
    (OpenAIClient.updateConfig
      { apiKey := "sk-oldkey", model := "gpt-4", baseURL := "https://api.openai.com/v1"
        maxTokens := 4000, timeout := 30000 }
      { apiKey := some "bad-key" }).1.apiKey = "bad-key" ∧
    (GeminiClient.updateConfig
      { apiKey := "AIza-old", model := "gemini-1.5-flash"
        baseURL := "https://generativelanguage.googleapis.com/v1beta"
        maxTokens := 4000, timeout := 30000 }
      { apiKey := some "" }).1.apiKey = "" := by
  have h := updateConfig_replaces_before_validation
    { apiKey := "sk-oldkey", model := "gpt-4", baseURL := "https://api.openai.com/v1"
      maxTokens := 4000, timeout := 30000 }
    { apiKey := some "bad-key" }
    { apiKey := "AIza-old", model := "gemini-1.5-flash"
      baseURL := "https://generativelanguage.googleapis.com/v1beta"
      maxTokens := 4000, timeout := 30000 }
    { apiKey := some "" } "bad-key" ""
    (by decide) (Or.inr (by decide)) (by decide) (by decide)
  exact ⟨by decide, h.2.1, h.2.2.2.2.1⟩
